import Mathlib

/-!
Verification of the IoT X-ray ingestion system against its specification.

The embedding models, over exact rational arithmetic:
* the metric calculator of SignalsService (signals.service.ts,
  calculateSignalMetrics);
* the query path of SignalsService (findAll, getStatistics);
* the persistence pre-save middleware of SignalSchema (signal.schema.ts);
* the RabbitMQ consumer and publisher (rabbitmq.service.ts);
* the device simulator of ProducerService (producer.service.ts).

JavaScript numbers are modelled as rationals; a possibly-undefined array
slot is modelled as an Option.  Truthiness tests on numbers become
nonzero tests, on optional strings nonempty-and-present tests.
-/

namespace IotXray

/-- One raw sample on the wire: a relative timestamp paired with the
position array.  The position array is a JS array whose slots may hold
undefined (the unit tests feed undefined speed values into the
calculator), so each slot is an Option. -/
abbrev Sample := Int × List (Option ℚ)

/-- Wire unit, mirroring the XRayData interface of rabbitmq.service.ts:
deviceId, data (array of samples) and time. -/
structure XRayData where
  deviceId : String
  data : List Sample
  time : Int
deriving Repr, DecidableEq

/-- Result of SignalsService.calculateSignalMetrics, mirroring the
CreateSignalDto fields it fills in. -/
structure CreateSignalDto where
  deviceId : String
  timestamp : Int
  data : List Sample
  dataLength : Nat
  dataVolume : Nat
  averageSpeed : ℚ
  maxSpeed : ℚ
  minSpeed : ℚ
  coordinates : ℚ × ℚ
deriving Repr, DecidableEq

/-- JS array indexing c[i] on an array of possibly-undefined slots:
out of bounds and an undefined slot both give undefined. -/
def jsIdx (l : List (Option ℚ)) (i : Nat) : Option ℚ :=
  (l.get? i).join

/-- SignalsService.calculateSignalMetrics: dataLength is the sample
count; dataVolume sums the position-array lengths; speeds are the
defined third components, averaged / maxed / minned with 0 defaults;
coordinates averages the samples whose first two components are both
defined, defaulting to (0, 0). -/
def calculateSignalMetrics (xrayData : XRayData) : CreateSignalDto :=
  let dataLength := xrayData.data.length
  let dataVolume := xrayData.data.foldl (fun total p => total + p.2.length) 0
  let speeds := xrayData.data.filterMap (fun p => jsIdx p.2 2)
  let averageSpeed : ℚ :=
    if 0 < speeds.length then
      speeds.foldl (· + ·) 0 / (speeds.length : ℚ)
    else 0
  let maxSpeed : ℚ :=
    match speeds with
    | [] => 0
    | s :: rest => rest.foldl max s
  let minSpeed : ℚ :=
    match speeds with
    | [] => 0
    | s :: rest => rest.foldl min s
  let validCoordinates := xrayData.data.filterMap (fun p =>
    match jsIdx p.2 0, jsIdx p.2 1 with
    | some a, some b => some (a, b)
    | _, _ => none)
  let avgCoordinates : ℚ × ℚ :=
    if 0 < validCoordinates.length then
      (validCoordinates.foldl (fun sum c => sum + c.1) 0 /
         (validCoordinates.length : ℚ),
       validCoordinates.foldl (fun sum c => sum + c.2) 0 /
         (validCoordinates.length : ℚ))
    else (0, 0)
  { deviceId := xrayData.deviceId
    timestamp := xrayData.time
    data := xrayData.data
    dataLength := dataLength
    dataVolume := dataVolume
    averageSpeed := averageSpeed
    maxSpeed := maxSpeed
    minSpeed := minSpeed
    coordinates := avgCoordinates }

/-- The concrete Reading of the specification scenario for the metric
calculator (two samples from device d1). -/
def scenarioReading : XRayData :=
  { deviceId := "d1"
    data :=
      [ (762, [some (51339764/1000000), some (12339223/1000000),
               some (12038/10000)]),
        (1766, [some (51339777/1000000), some (12339211/1000000),
                some (1531604/1000000)]) ]
    time := 1735683480000 }

/-- Manual acknowledgment decision taken by the consumer callback of
RabbitMQService.startConsumer: ack, or nack with requeue true. -/
inductive ConsumerAction where
  | ack
  | nackRequeue
deriving Repr, DecidableEq

/-- The listener that SignalsService.onModuleInit registers on the
xray-data event.  It invokes processXRayData asynchronously and catches
any rejection, only logging the error; nothing propagates back into the
consumer callback.  We return the logged error message, if any. -/
def ingestionListener (handler : XRayData → Except String CreateSignalDto)
    (d : XRayData) : Option String :=
  match handler d with
  | Except.ok _ => none
  | Except.error e => some e

/-- Message handling of RabbitMQService.startConsumer: on a payload that
decodes as XRayData, the callback emits the xray-data event (running the
ingestion listener) and then acks; the catch branch, reached only when
the decode throws, nacks with requeue true.  Because the listener
swallows every downstream error (see ingestionListener), the outcome of
the handler cannot reach the catch branch: it is returned only as a
log. -/
def consumeMessage (handler : XRayData → Except String CreateSignalDto)
    (decoded : Option XRayData) : ConsumerAction × Option String :=
  match decoded with
  | some d => (ConsumerAction.ack, ingestionListener handler d)
  | none => (ConsumerAction.nackRequeue, none)

/-- A downstream handler whose persistence write always fails. -/
def failingHandler : XRayData → Except String CreateSignalDto :=
  fun _ => Except.error "persistence write failed"

/-- Channel state seen by RabbitMQService.publishXRayData: none when no
channel has been created, otherwise the list of messages already handed
to the channel.  The operation returns the new channel state and the
outcome; the error branch mirrors the thrown Channel-not-initialized
error and performs no publish and no reconnect. -/
def publishXRayData (channel : Option (List XRayData)) (data : XRayData) :
    Option (List XRayData) × Except String Unit :=
  match channel with
  | none => (none, Except.error "Channel not initialized")
  | some published => (some (published ++ [data]), Except.ok ())

/-- Stored signal record as consulted by the query path of
SignalsService (findAll filters on deviceId and timestamp; getStatistics
aggregates dataLength, dataVolume and the speed fields).  Payload fields
the query path never reads (data, coordinates, createdAt, updatedAt) are
not displayed. -/
structure StoredSignal where
  deviceId : String
  timestamp : Int
  dataLength : ℚ
  dataVolume : ℚ
  averageSpeed : ℚ
  maxSpeed : ℚ
  minSpeed : ℚ
deriving Repr, DecidableEq

/-- Filter options of SignalFilterDto: all optional. -/
structure SignalFilterDto where
  deviceId : Option String := none
  startTime : Option Int := none
  endTime : Option Int := none
  limit : Option Nat := none
  skip : Option Nat := none
deriving Repr, DecidableEq

/-- The deviceId guard of findAll: JS tests if (filter?.deviceId), so
the filter applies only when deviceId is present and non-empty. -/
def applyDeviceFilter (store : List StoredSignal)
    (deviceId : Option String) : List StoredSignal :=
  match deviceId with
  | some d => if d = "" then store else store.filter (fun r => r.deviceId == d)
  | none => store

/-- The time-range guard of findAll: JS tests
if (filter?.startTime && filter?.endTime), so the inclusive range runs
only when both bounds are present and nonzero (0 is falsy); otherwise
no time condition is added at all. -/
def applyTimeFilter (store : List StoredSignal)
    (startTime endTime : Option Int) : List StoredSignal :=
  match startTime, endTime with
  | some s, some e =>
      if s ≠ 0 ∧ e ≠ 0 then
        store.filter (fun r =>
          decide (s ≤ r.timestamp) && decide (r.timestamp ≤ e))
      else store
  | _, _ => store

/-- The skip guard of findAll: runs only when present and nonzero
(0 is falsy and skipping 0 is a no-op anyway). -/
def applySkip (store : List StoredSignal) (skip : Option Nat) :
    List StoredSignal :=
  match skip with
  | some k => if k ≠ 0 then store.drop k else store
  | none => store

/-- The limit guard of findAll: runs only when present and nonzero
(0 is falsy; a MongoDB limit of 0 means no limit anyway). -/
def applyLimit (store : List StoredSignal) (limit : Option Nat) :
    List StoredSignal :=
  match limit with
  | some l => if l ≠ 0 then store.take l else store
  | none => store

/-- Pagination of findAll: skip is applied before limit (MongoDB
applies skip before limit regardless of builder call order). -/
def applyPagination (store : List StoredSignal)
    (skip limit : Option Nat) : List StoredSignal :=
  applyLimit (applySkip store skip) limit

/-- SignalsService.findAll: device filter, then time-range filter, then
pagination, composed with AND semantics. -/
def findAll (store : List StoredSignal) (filter : SignalFilterDto) :
    List StoredSignal :=
  applyPagination
    (applyTimeFilter (applyDeviceFilter store filter.deviceId)
      filter.startTime filter.endTime)
    filter.skip filter.limit

/-- A two-record store for exercising the time-range filter. -/
def c4Store : List StoredSignal :=
  [ { deviceId := "d1", timestamp := 10, dataLength := 2, dataVolume := 6
      averageSpeed := 1, maxSpeed := 1, minSpeed := 1 },
    { deviceId := "d1", timestamp := 25, dataLength := 2, dataVolume := 6
      averageSpeed := 1, maxSpeed := 1, minSpeed := 1 } ]

/-- A filter with both bounds supplied and nonzero. -/
def c4Filter : SignalFilterDto := { startTime := some 3, endTime := some 20 }

/-- A store whose single record lies outside the claimed range. -/
def c4ZeroStore : List StoredSignal :=
  [ { deviceId := "d1", timestamp := 10, dataLength := 2, dataVolume := 6
      averageSpeed := 1, maxSpeed := 1, minSpeed := 1 } ]

/-- A filter supplying both bounds, with startTime 0. -/
def c4ZeroFilter : SignalFilterDto := { startTime := some 0, endTime := some 5 }

/-- Rounding to 2 decimal places as the statistics code does:
Math.round(x * 100) / 100 (Math.round is floor of x + 1/2, matching
Mathlib round). -/
def round2 (q : ℚ) : ℚ := ((round (q * 100) : ℤ) : ℚ) / 100

/-- Aggregation result of SignalsService.getStatistics. -/
structure SignalStatistics where
  totalSignals : Nat
  totalDevices : Nat
  averageDataLength : ℚ
  averageDataVolume : ℚ
  averageSpeed : ℚ
  maxSpeed : ℚ
  minSpeed : ℚ
deriving Repr, DecidableEq

/-- The all-zero statistics returned when no records match. -/
def zeroStatistics : SignalStatistics :=
  { totalSignals := 0, totalDevices := 0, averageDataLength := 0
    averageDataVolume := 0, averageSpeed := 0, maxSpeed := 0, minSpeed := 0 }

/-- The match stage of the aggregation: scoped to one device when
deviceId is supplied and truthy (non-empty), else all records. -/
def matchingSignals (store : List StoredSignal) (deviceId : Option String) :
    List StoredSignal :=
  match deviceId with
  | some d => if d = "" then store else store.filter (fun r => r.deviceId == d)
  | none => store

/-- SignalsService.getStatistics: group stage counting records, the
distinct-device set, averages of dataLength, dataVolume and
averageSpeed, and min/max speeds; the three averages are rounded to 2
decimal places, and an empty match yields the all-zero result. -/
def getStatistics (store : List StoredSignal) (deviceId : Option String) :
    SignalStatistics :=
  match matchingSignals store deviceId with
  | [] => zeroStatistics
  | first :: rest =>
      let matching := first :: rest
      let n : ℚ := (matching.length : ℚ)
      { totalSignals := matching.length
        totalDevices := (matching.map (fun r => r.deviceId)).dedup.length
        averageDataLength :=
          round2 ((matching.foldl (fun sum r => sum + r.dataLength) 0) / n)
        averageDataVolume :=
          round2 ((matching.foldl (fun sum r => sum + r.dataVolume) 0) / n)
        averageSpeed :=
          round2 ((matching.foldl (fun sum r => sum + r.averageSpeed) 0) / n)
        maxSpeed := rest.foldl (fun m r => max m r.maxSpeed) first.maxSpeed
        minSpeed := rest.foldl (fun m r => min m r.minSpeed) first.minSpeed }

/-- One catalog entry of the ProducerService: the stored sample
sequence of a device plus its base timestamp. -/
structure DeviceData where
  data : List Sample
  time : Int
deriving Repr, DecidableEq

/-- A message handed to publishXRayData by the producer. -/
structure SimMessage where
  deviceId : String
  data : List Sample
  time : Int
deriving Repr, DecidableEq

/-- State of one continuous simulation: the dataIndex counter of
ProducerService.simulateDevice and the messages published so far. -/
structure SimState where
  dataIndex : Nat
  published : List SimMessage
deriving Repr, DecidableEq

/-- One tick of the interval set up by ProducerService.simulateDevice:
it reads data[dataIndex % data.length] (modelled with get?, since the
JS expression yields undefined on an empty sequence), publishes a
Reading holding exactly that one sample, then increments dataIndex.
A publish error is logged and swallowed and skips the increment, so a
failed tick leaves the state unchanged and the timer keeps running. -/
def simulateTick (deviceId : String) (deviceData : DeviceData) (now : Int)
    (publishOk : Bool) (st : SimState) : SimState :=
  if publishOk then
    { dataIndex := st.dataIndex + 1
      published := st.published ++
        [{ deviceId := deviceId
           data := (deviceData.data.get?
             (st.dataIndex % deviceData.data.length)).toList
           time := now }] }
  else st

/-- A concrete two-sample device for exercising the simulator. -/
def demoDeviceData : DeviceData :=
  { data :=
      [ (762, [some (51339764/1000000), some (12339223/1000000),
               some (12038/10000)]),
        (1766, [some (51339777/1000000), some (12339211/1000000),
                some (1531604/1000000)]) ]
    time := 1735683480000 }

/-- Catalog lookup this.xrayData[deviceId] of the ProducerService. -/
def lookupDevice (catalog : List (String × DeviceData)) (deviceId : String) :
    Option DeviceData :=
  (catalog.find? (fun p => p.1 == deviceId)).map (fun p => p.2)

/-- ProducerService.sendSingleMessage: throws when the device is absent
from the catalog, else produces one message holding the entire stored
sample sequence of the device with a fresh timestamp. -/
def sendSingleMessage (catalog : List (String × DeviceData)) (now : Int)
    (deviceId : String) : Except String SimMessage :=
  match lookupDevice catalog deviceId with
  | none => Except.error ("Device " ++ deviceId ++ " not found in data")
  | some deviceData =>
      Except.ok { deviceId := deviceId, data := deviceData.data, time := now }

/-- The inner loop of sendBulkMessages: repeat sendSingleMessage count
times for one device, accumulating the published messages; an error
from sendSingleMessage propagates. -/
def sendRepeat (catalog : List (String × DeviceData)) (now : Int)
    (deviceId : String) : Nat → List SimMessage →
    Except String (List SimMessage)
  | 0, acc => Except.ok acc
  | Nat.succ n, acc =>
      match sendSingleMessage catalog now deviceId with
      | Except.ok m => sendRepeat catalog now deviceId n (acc ++ [m])
      | Except.error e => Except.error e

/-- The outer loop of ProducerService.sendBulkMessages: walk the
requested deviceIds in order; a deviceId absent from the catalog is
skipped with a warning, a present one gets count messages. -/
def sendBulkGo (catalog : List (String × DeviceData)) (now : Int)
    (count : Nat) : List String → List SimMessage →
    Except String (List SimMessage)
  | [], acc => Except.ok acc
  | deviceId :: rest, acc =>
      match lookupDevice catalog deviceId with
      | none => sendBulkGo catalog now count rest acc
      | some _ =>
          match sendRepeat catalog now deviceId count acc with
          | Except.ok acc2 => sendBulkGo catalog now count rest acc2
          | Except.error e => Except.error e

/-- ProducerService.sendBulkMessages. -/
def sendBulkMessages (catalog : List (String × DeviceData)) (now : Int)
    (deviceIds : List String) (count : Nat) :
    Except String (List SimMessage) :=
  sendBulkGo catalog now count deviceIds []

/-- The behaviour C9 describes: device-major order, count messages per
catalogued device, unknown deviceIds skipped. -/
def bulkExpected (catalog : List (String × DeviceData)) (now : Int)
    (deviceIds : List String) (count : Nat) : List SimMessage :=
  deviceIds.flatMap (fun deviceId =>
    match lookupDevice catalog deviceId with
    | none => []
    | some deviceData =>
        List.replicate count
          { deviceId := deviceId, data := deviceData.data, time := now })

/-- The demo catalog: one known device d1. -/
def demoCatalog : List (String × DeviceData) := [("d1", demoDeviceData)]

/-- Persisted Signal document as seen by the pre-save middleware of
SignalSchema: the schema types data as an array of
[timestamp, [latitude, longitude, speed]] with full numeric triples;
coordinates and the speed statistics are optional. -/
structure SignalDoc where
  deviceId : String
  timestamp : Int
  data : List (Int × (ℚ × ℚ × ℚ))
  dataLength : Int
  dataVolume : Int
  averageSpeed : Option ℚ
  maxSpeed : Option ℚ
  minSpeed : Option ℚ
  coordinates : Option (ℚ × ℚ)
deriving Repr, DecidableEq

/-- First step of the pre-save middleware of SignalSchema: if
dataLength is truthy (nonzero) and dataVolume differs from
dataLength * 3, overwrite dataVolume with dataLength * 3. -/
def fixDataVolume (doc : SignalDoc) : SignalDoc :=
  if doc.dataLength ≠ 0 ∧ doc.dataVolume ≠ doc.dataLength * 3 then
    { doc with dataVolume := doc.dataLength * 3 }
  else doc

/-- Second step of the pre-save middleware: if coordinates is absent
and data non-empty, set coordinates to the componentwise mean of the
latitude and longitude components of the samples. -/
def fillCoordinates (doc : SignalDoc) : SignalDoc :=
  if doc.coordinates = none ∧ doc.data ≠ [] then
    let totalLat := doc.data.foldl (fun sum p => sum + p.2.1) 0
    let totalLng := doc.data.foldl (fun sum p => sum + p.2.2.1) 0
    let n : ℚ := (doc.data.length : ℚ)
    { doc with coordinates := some (totalLat / n, totalLng / n) }
  else doc

/-- The pre-save middleware of SignalSchema, both steps in order. -/
def preSave (doc : SignalDoc) : SignalDoc :=
  fillCoordinates (fixDataVolume doc)

/-- The part of the Mongoose validation gate that constrains the
pre-save middleware: the schema declares dataLength required with
min 1, and Mongoose runs validation before user pre-save middleware,
so every document reaching the hook satisfies this bound.  The other
validators (dataVolume min 3, the deviceId pattern, coordinate ranges,
speed minimums) do not constrain the fields the middleware reads
beyond this and are not needed as hypotheses. -/
def validatedDataLength (doc : SignalDoc) : Prop := 1 ≤ doc.dataLength

/-- A document with nonzero dataLength, inconsistent dataVolume, no
coordinates and two samples. -/
def c10FixDoc : SignalDoc :=
  { deviceId := "d1", timestamp := 1
    data := [(762, (1, 2, 3)), (800, (3, 4, 5))]
    dataLength := 2, dataVolume := 5, averageSpeed := none, maxSpeed := none
    minSpeed := none, coordinates := none }

/-- Folding the per-sample component counts over samples whose position
arrays all have length 3 adds 3 per sample. -/
lemma foldl_componentCount (l : List Sample) (acc : Nat)
    (h : ∀ p ∈ l, p.2.length = 3) :
    l.foldl (fun total p => total + p.2.length) acc = acc + 3 * l.length := by
  induction l generalizing acc with
  | nil => simp
  | cons p rest ih =>
    have hp : p.2.length = 3 := h p (List.mem_cons_self _ _)
    have hrest : ∀ q ∈ rest, q.2.length = 3 :=
      fun q hq => h q (List.mem_cons_of_mem _ hq)
    simp only [List.foldl_cons, hp, ih _ hrest, List.length_cons]
    ring

/-- The skipped list is a sublist of the original. -/
lemma applySkip_subset (store : List StoredSignal) (skip : Option Nat) :
    applySkip store skip ⊆ store := by
  rcases skip with _ | k
  · exact fun _ hx => hx
  · show (if k ≠ 0 then store.drop k else store) ⊆ store
    by_cases hk : k ≠ 0
    · rw [if_pos hk]
      exact List.drop_subset _ _
    · rw [if_neg hk]
      exact fun _ hx => hx

/-- The limited list is a sublist of the original. -/
lemma applyLimit_subset (store : List StoredSignal) (limit : Option Nat) :
    applyLimit store limit ⊆ store := by
  rcases limit with _ | l
  · exact fun _ hx => hx
  · show (if l ≠ 0 then store.take l else store) ⊆ store
    by_cases hl : l ≠ 0
    · rw [if_pos hl]
      exact List.take_subset _ _
    · rw [if_neg hl]
      exact fun _ hx => hx

/-- Membership in the paginated list implies membership in the
underlying list. -/
lemma mem_of_mem_applyPagination {r : StoredSignal}
    {store : List StoredSignal} {skip limit : Option Nat}
    (h : r ∈ applyPagination store skip limit) : r ∈ store :=
  applySkip_subset store skip (applyLimit_subset _ limit h)

/-- A missing startTime disables the time-range filter. -/
lemma applyTimeFilter_none_left (store : List StoredSignal)
    (e : Option Int) : applyTimeFilter store none e = store := by
  cases e <;> rfl

/-- A missing endTime disables the time-range filter. -/
lemma applyTimeFilter_none_right (store : List StoredSignal)
    (s : Option Int) : applyTimeFilter store s none = store := by
  cases s <;> rfl

/-- Repeating sendSingleMessage for a catalogued device appends count
copies of its full-sequence message. -/
lemma sendRepeat_ok (catalog : List (String × DeviceData)) (now : Int)
    (deviceId : String) (deviceData : DeviceData)
    (h : lookupDevice catalog deviceId = some deviceData) :
    ∀ (n : Nat) (acc : List SimMessage),
      sendRepeat catalog now deviceId n acc
        = Except.ok (acc ++ List.replicate n
            { deviceId := deviceId, data := deviceData.data, time := now }) := by
  intro n
  induction n with
  | zero => intro acc; simp [sendRepeat]
  | succ n ih =>
      intro acc
      simp only [sendRepeat, sendSingleMessage, h, ih, List.replicate_succ]
      simp

/-- The bulk loop realizes bulkExpected for any accumulator. -/
lemma sendBulkGo_eq_expected (catalog : List (String × DeviceData))
    (now : Int) (count : Nat) :
    ∀ (deviceIds : List String) (acc : List SimMessage),
      sendBulkGo catalog now count deviceIds acc
        = Except.ok (acc ++ bulkExpected catalog now deviceIds count) := by
  intro deviceIds
  induction deviceIds with
  | nil => intro acc; simp [sendBulkGo, bulkExpected]
  | cons deviceId rest ih =>
      intro acc
      cases h : lookupDevice catalog deviceId with
      | none => simp [sendBulkGo, h, ih, bulkExpected]
      | some deviceData =>
          simp [sendBulkGo, h, sendRepeat_ok catalog now deviceId deviceData h,
            ih, bulkExpected]

/-- Folding rational additions of a projection equals the sum of the
mapped list, shifted by the accumulator. -/
lemma foldl_add_proj {α : Type} (f : α → ℚ) (l : List α) (acc : ℚ) :
    l.foldl (fun sum p => sum + f p) acc = acc + (l.map f).sum := by
  induction l generalizing acc with
  | nil => simp
  | cons a t ih => simp [ih, add_assoc]

/-- The dataVolume fix leaves dataLength unchanged. -/
lemma fixDataVolume_dataLength (doc : SignalDoc) :
    (fixDataVolume doc).dataLength = doc.dataLength := by
  unfold fixDataVolume
  split <;> rfl

/-- The dataVolume fix leaves data unchanged. -/
lemma fixDataVolume_data (doc : SignalDoc) :
    (fixDataVolume doc).data = doc.data := by
  unfold fixDataVolume
  split <;> rfl

/-- The dataVolume fix leaves coordinates unchanged. -/
lemma fixDataVolume_coordinates (doc : SignalDoc) :
    (fixDataVolume doc).coordinates = doc.coordinates := by
  unfold fixDataVolume
  split <;> rfl

/-- After the dataVolume fix, a truthy dataLength guarantees the
dataVolume invariant. -/
lemma fixDataVolume_volume (doc : SignalDoc) (hlen : doc.dataLength ≠ 0) :
    (fixDataVolume doc).dataVolume = doc.dataLength * 3 := by
  unfold fixDataVolume
  by_cases h2 : doc.dataVolume ≠ doc.dataLength * 3
  · rw [if_pos ⟨hlen, h2⟩]
  · rw [if_neg (fun hc => h2 hc.2)]
    push_neg at h2
    exact h2

/-- The coordinate fill leaves dataVolume unchanged. -/
lemma fillCoordinates_dataVolume (doc : SignalDoc) :
    (fillCoordinates doc).dataVolume = doc.dataVolume := by
  unfold fillCoordinates
  split <;> rfl

/-- The coordinate fill leaves dataLength unchanged. -/
lemma fillCoordinates_dataLength (doc : SignalDoc) :
    (fillCoordinates doc).dataLength = doc.dataLength := by
  unfold fillCoordinates
  split <;> rfl

/-- C1 counterexample: a message that decodes successfully but whose
downstream handler fails is still acked, not nacked with requeue; the
handler failure is only logged.  This refutes the claim that handler
failure leads to a negative acknowledgment. -/
theorem C1_handler_failure_still_acked_counterexample :
    failingHandler scenarioReading = Except.error "persistence write failed" ∧
    (consumeMessage failingHandler (some scenarioReading)).1
      ≠ ConsumerAction.nackRequeue ∧
    (consumeMessage failingHandler (some scenarioReading)).2
      = some "persistence write failed" := by
  refine ⟨rfl, ?_, rfl⟩
  intro h
  simp [consumeMessage] at h

/-- C1 amended: the consumer acks every successfully decoded message
regardless of the downstream handler outcome (the handler runs behind
an error-swallowing listener), and nacks with requeue true exactly when
the decode fails. -/
theorem C1_ack_on_decode_nack_on_decode_failure
    (handler : XRayData → Except String CreateSignalDto) (d : XRayData) :
    (consumeMessage handler (some d)).1 = ConsumerAction.ack ∧
    (consumeMessage handler none).1 = ConsumerAction.nackRequeue :=
  ⟨rfl, rfl⟩

/-- C2: for every Reading with non-empty samples all carrying a complete
[latitude, longitude, speed] triple, the metric calculator produces
dataVolume equal to 3 times dataLength. -/
theorem C2_dataVolume_is_three_times_dataLength (x : XRayData)
    (_hne : x.data ≠ [])
    (hcomplete : ∀ s ∈ x.data, ∃ a b c : ℚ, s.2 = [some a, some b, some c]) :
    (calculateSignalMetrics x).dataVolume
      = 3 * (calculateSignalMetrics x).dataLength := by
  have hlen : ∀ p ∈ x.data, p.2.length = 3 := by
    intro p hp
    obtain ⟨a, b, c, habc⟩ := hcomplete p hp
    simp [habc]
  show x.data.foldl (fun total p => total + p.2.length) 0 = 3 * x.data.length
  rw [foldl_componentCount x.data 0 hlen]
  omega

/-- Witness for C2 at the concrete two-sample scenario Reading. -/
theorem C2_dataVolume_is_three_times_dataLength_witness :
    (calculateSignalMetrics scenarioReading).dataVolume
      = 3 * (calculateSignalMetrics scenarioReading).dataLength := by
  apply C2_dataVolume_is_three_times_dataLength scenarioReading
  · intro h
    simp [scenarioReading] at h
  · intro s hs
    simp only [scenarioReading, List.mem_cons, List.not_mem_nil, or_false] at hs
    rcases hs with rfl | rfl
    · exact ⟨_, _, _, rfl⟩
    · exact ⟨_, _, _, rfl⟩

/-- C3 counterexample: on the scenario Reading the exact averageSpeed
computed is 1.367702, not the 1.3677 the claim states, so the claimed
conjunction of output values is false. -/
theorem C3_scenario_averageSpeed_counterexample :
    (calculateSignalMetrics scenarioReading).averageSpeed
      ≠ (13677/10000 : ℚ) := by
  have h : (calculateSignalMetrics scenarioReading).averageSpeed
      = (0 + 12038/10000 + 1531604/1000000) / (((2 : ℕ) : ℚ)) := rfl
  rw [h]
  norm_num

/-- C3 amended: on the scenario Reading the calculator produces exactly
dataLength 2, dataVolume 6, averageSpeed 1.367702, maxSpeed 1.531604,
minSpeed 1.2038 and coordinates (51.3397705, 12.339217), with no
rounding applied. -/
theorem C3_scenario_metrics :
    (calculateSignalMetrics scenarioReading).dataLength = 2 ∧
    (calculateSignalMetrics scenarioReading).dataVolume = 6 ∧
    (calculateSignalMetrics scenarioReading).averageSpeed
      = (1367702/1000000 : ℚ) ∧
    (calculateSignalMetrics scenarioReading).maxSpeed
      = (1531604/1000000 : ℚ) ∧
    (calculateSignalMetrics scenarioReading).minSpeed = (12038/10000 : ℚ) ∧
    (calculateSignalMetrics scenarioReading).coordinates
      = ((513397705/10000000 : ℚ), (12339217/1000000 : ℚ)) := by
  refine ⟨rfl, rfl, ?_, ?_, ?_, ?_⟩
  · have h : (calculateSignalMetrics scenarioReading).averageSpeed
        = (0 + 12038/10000 + 1531604/1000000) / (((2 : ℕ) : ℚ)) := rfl
    rw [h]
    norm_num
  · have h : (calculateSignalMetrics scenarioReading).maxSpeed
        = max (12038/10000 : ℚ) (1531604/1000000) := rfl
    rw [h, max_def]
    norm_num
  · have h : (calculateSignalMetrics scenarioReading).minSpeed
        = min (12038/10000 : ℚ) (1531604/1000000) := rfl
    rw [h, min_def]
    norm_num
  · have h : (calculateSignalMetrics scenarioReading).coordinates
        = ((0 + 51339764/1000000 + 51339777/1000000) / (((2 : ℕ) : ℚ)),
           (0 + 12339223/1000000 + 12339211/1000000) / (((2 : ℕ) : ℚ))) := rfl
    rw [h, Prod.ext_iff]
    constructor <;> norm_num

/-- C4 amended: when both startTime and endTime are supplied and
nonzero (JS truthiness), every record returned by findAll has its
timestamp in the inclusive range; when either bound is absent, the
result equals the query with no time bounds at all. -/
theorem C4_time_range_semantics (store : List StoredSignal)
    (f : SignalFilterDto) :
    (∀ s e : Int, f.startTime = some s → f.endTime = some e →
      s ≠ 0 → e ≠ 0 →
      ∀ r ∈ findAll store f, s ≤ r.timestamp ∧ r.timestamp ≤ e) ∧
    ((f.startTime = none ∨ f.endTime = none) →
      findAll store f
        = findAll store { f with startTime := none, endTime := none }) := by
  constructor
  · intro s e hs he hsne hene r hr
    unfold findAll at hr
    rw [hs, he] at hr
    have hr2 := mem_of_mem_applyPagination hr
    simp only [applyTimeFilter] at hr2
    rw [if_pos ⟨hsne, hene⟩] at hr2
    have hp := List.of_mem_filter hr2
    simp only [Bool.and_eq_true, decide_eq_true_eq] at hp
    exact hp
  · intro h
    rcases h with h | h
    · simp [findAll, h, applyTimeFilter_none_left]
    · simp [findAll, h, applyTimeFilter_none_left, applyTimeFilter_none_right]

/-- Witness for C4 at a concrete store and filter: the record returned
by findAll with bounds 3 and 20 has its timestamp inside the range. -/
theorem C4_time_range_semantics_witness :
    (3 : Int) ≤ (c4Store.get ⟨0, by decide⟩).timestamp ∧
    (c4Store.get ⟨0, by decide⟩).timestamp ≤ 20 := by
  refine (C4_time_range_semantics c4Store c4Filter).1 3 20 rfl rfl
    (by decide) (by decide) _ ?_
  have heval : findAll c4Store c4Filter = [c4Store.get ⟨0, by decide⟩] := rfl
  rw [heval]
  exact List.mem_singleton_self _

/-- C4 counterexample: with startTime 0 and endTime 5 both supplied,
findAll returns a record with timestamp 10, outside the inclusive
range, because a zero bound is falsy in JS and disables the whole
time-range filter. -/
theorem C4_zero_bound_counterexample :
    c4ZeroFilter.startTime = some 0 ∧ c4ZeroFilter.endTime = some 5 ∧
    findAll c4ZeroStore c4ZeroFilter = c4ZeroStore ∧
    ¬ (∀ r ∈ findAll c4ZeroStore c4ZeroFilter,
        (0 : Int) ≤ r.timestamp ∧ r.timestamp ≤ 5) := by
  refine ⟨rfl, rfl, rfl, ?_⟩
  intro h
  have hmem : (c4ZeroStore.get ⟨0, by decide⟩)
      ∈ findAll c4ZeroStore c4ZeroFilter := by
    have heval : findAll c4ZeroStore c4ZeroFilter
        = [c4ZeroStore.get ⟨0, by decide⟩] := rfl
    rw [heval]
    exact List.mem_singleton_self _
  exact absurd (h _ hmem).2 (by decide)

/-- C5: for every Reading with an empty samples list the calculator
produces zeroed metrics: averageSpeed, maxSpeed, minSpeed, dataLength
and dataVolume all 0 and coordinates (0, 0). -/
theorem C5_empty_samples_zeroed_metrics (deviceId : String) (time : Int) :
    calculateSignalMetrics { deviceId := deviceId, data := [], time := time }
      = { deviceId := deviceId, timestamp := time, data := []
          dataLength := 0, dataVolume := 0, averageSpeed := 0
          maxSpeed := 0, minSpeed := 0, coordinates := (0, 0) } := rfl

/-- C6: publishing with no active channel fails with the
Channel-not-initialized error, leaves the channel state untouched (no
message published, no implicit reconnect), for every Reading. -/
theorem C6_publish_without_channel_fails (data : XRayData) :
    publishXRayData none data
      = (none, Except.error "Channel not initialized") := rfl

/-- C7: the statistics operation, for any store and optional deviceId
scope, returns the all-zero struct when no records match (it is a total
function, never an error), and its three numeric averages are always
multiples of 1/100, i.e. rounded to 2 decimal places. -/
theorem C7_statistics_zero_on_empty_and_rounded
    (store : List StoredSignal) (deviceId : Option String) :
    (matchingSignals store deviceId = [] →
      getStatistics store deviceId = zeroStatistics) ∧
    (∃ a : ℤ, (getStatistics store deviceId).averageDataLength
        = (a : ℚ) / 100) ∧
    (∃ b : ℤ, (getStatistics store deviceId).averageDataVolume
        = (b : ℚ) / 100) ∧
    (∃ c : ℤ, (getStatistics store deviceId).averageSpeed
        = (c : ℚ) / 100) := by
  unfold getStatistics
  cases h : matchingSignals store deviceId with
  | nil =>
      refine ⟨fun _ => rfl, ⟨0, ?_⟩, ⟨0, ?_⟩, ⟨0, ?_⟩⟩ <;>
        norm_num [zeroStatistics]
  | cons first rest =>
      refine ⟨fun hcon => absurd hcon (by simp), ⟨_, rfl⟩, ⟨_, rfl⟩, ⟨_, rfl⟩⟩

/-- Witness for C7 on the empty store: statistics of no records is the
all-zero struct. -/
theorem C7_statistics_zero_on_empty_and_rounded_witness :
    getStatistics [] none = zeroStatistics :=
  (C7_statistics_zero_on_empty_and_rounded [] none).1 rfl

/-- C8: a successful tick of a continuous simulation for a device with
a non-empty stored sequence publishes exactly one message holding
exactly the one sample at position dataIndex mod sequence length
(never the full batch), and advances the cursor by one, its effective
position wrapping modulo the sequence length. -/
theorem C8_tick_one_sample_round_robin (deviceId : String)
    (deviceData : DeviceData) (now : Int) (st : SimState)
    (hne : 0 < deviceData.data.length) :
    ∃ s : Sample,
      deviceData.data.get? (st.dataIndex % deviceData.data.length)
        = some s ∧
      (simulateTick deviceId deviceData now true st).published
        = st.published ++ [{ deviceId := deviceId, data := [s], time := now }] ∧
      (simulateTick deviceId deviceData now true st).dataIndex
        = st.dataIndex + 1 ∧
      (simulateTick deviceId deviceData now true st).dataIndex
          % deviceData.data.length
        = (st.dataIndex % deviceData.data.length + 1)
          % deviceData.data.length := by
  have hlt : st.dataIndex % deviceData.data.length < deviceData.data.length :=
    Nat.mod_lt _ hne
  refine ⟨deviceData.data.get ⟨_, hlt⟩, List.get?_eq_get hlt, ?_, rfl, ?_⟩
  · simp [simulateTick, List.get?_eq_get hlt, List.getElem?_eq_getElem hlt,
      List.get_eq_getElem]
  · show (st.dataIndex + 1) % deviceData.data.length
        = (st.dataIndex % deviceData.data.length + 1) % deviceData.data.length
    exact Nat.ModEq.add_right 1
      (Nat.mod_mod_of_dvd st.dataIndex dvd_rfl).symm

/-- Witness for C8: a successful tick at cursor 0 on the two-sample
demo device advances the cursor to 1. -/
theorem C8_tick_one_sample_round_robin_witness :
    (simulateTick "d1" demoDeviceData 99 true
      { dataIndex := 0, published := [] }).dataIndex = 1 := by
  obtain ⟨s, hs, hpub, hidx, hmod⟩ :=
    C8_tick_one_sample_round_robin "d1" demoDeviceData 99
      { dataIndex := 0, published := [] } (by decide)
  exact hidx

/-- C9: sendBulk publishes, without throwing, exactly count messages
per catalogued deviceId in device-major order, skipping unknown
deviceIds; in particular sendBulk for d1 and an unknown device with
count 2 publishes exactly the 2 messages for d1. -/
theorem C9_sendBulk_device_major_skips_unknown
    (catalog : List (String × DeviceData)) (now : Int)
    (deviceIds : List String) (count : Nat) :
    sendBulkMessages catalog now deviceIds count
      = Except.ok (bulkExpected catalog now deviceIds count) ∧
    sendBulkMessages demoCatalog 5 ["d1", "unknown"] 2
      = Except.ok (List.replicate 2
          { deviceId := "d1", data := demoDeviceData.data, time := 5 }) ∧
    (List.replicate 2
        { deviceId := "d1", data := demoDeviceData.data, time := 5 }
      : List SimMessage).length = 2 := by
  refine ⟨?_, ?_, rfl⟩
  · have h := sendBulkGo_eq_expected catalog now count deviceIds []
    simpa [sendBulkMessages] using h
  · have h := sendBulkGo_eq_expected demoCatalog 5 2 ["d1", "unknown"] []
    simpa [sendBulkMessages, bulkExpected, lookupDevice, demoCatalog] using h

/-- C10: every document that passes Mongoose validation (dataLength
required with min 1, checked before user pre-save middleware) and then
the pre-save middleware satisfies dataVolume = 3 * dataLength (an
inconsistent dataVolume is silently overwritten), and a document
without coordinates but with non-empty data gets coordinates set to
the componentwise mean of the latitude and longitude components of the
samples. -/
theorem C10_presave_invariants (doc : SignalDoc)
    (hval : validatedDataLength doc) :
    (preSave doc).dataVolume = 3 * (preSave doc).dataLength ∧
    (doc.coordinates = none → doc.data ≠ [] →
      (preSave doc).coordinates = some
        ((doc.data.map (fun p => p.2.1)).sum / (doc.data.length : ℚ),
         (doc.data.map (fun p => p.2.2.1)).sum / (doc.data.length : ℚ))) := by
  constructor
  · have hlen : doc.dataLength ≠ 0 := by
      have h1 : (1 : Int) ≤ doc.dataLength := hval
      omega
    show (fillCoordinates (fixDataVolume doc)).dataVolume
        = 3 * (fillCoordinates (fixDataVolume doc)).dataLength
    rw [fillCoordinates_dataVolume, fillCoordinates_dataLength,
      fixDataVolume_dataLength, fixDataVolume_volume doc hlen, mul_comm]
  · intro hco hdata
    have hc : (fixDataVolume doc).coordinates = none := by
      rw [fixDataVolume_coordinates]
      exact hco
    have hd : (fixDataVolume doc).data ≠ [] := by
      rw [fixDataVolume_data]
      exact hdata
    show (fillCoordinates (fixDataVolume doc)).coordinates = _
    unfold fillCoordinates
    rw [if_pos ⟨hc, hd⟩]
    simp [fixDataVolume_data, foldl_add_proj]

/-- Witness for C10 at a concrete validated document: the middleware
fixes dataVolume to 6 and fills in the mean coordinates. -/
theorem C10_presave_invariants_witness :
    (preSave c10FixDoc).dataVolume = 3 * (preSave c10FixDoc).dataLength ∧
    (preSave c10FixDoc).coordinates = some
      ((c10FixDoc.data.map (fun p => p.2.1)).sum / (c10FixDoc.data.length : ℚ),
       (c10FixDoc.data.map (fun p => p.2.2.1)).sum
         / (c10FixDoc.data.length : ℚ)) := by
  have hval : validatedDataLength c10FixDoc :=
    show (1 : Int) ≤ c10FixDoc.dataLength by decide
  have h := C10_presave_invariants c10FixDoc hval
  exact ⟨h.1, h.2 rfl (by decide)⟩

end IotXray
